import Mathlib

/-!
Verification of the FinancialLending loan-application server.

The development shallowly embeds the two algorithmic cores of the
repository:

* the loan calculator of the `POST /api/calculate-loan` route in
  `src/server/routes.ts` (amortised-payment formula at a fixed 5 % annual
  rate, results rounded to cents with JavaScript `Math.round`), and
* the application lifecycle operations of `DatabaseStorage`
  (`createLoanApplication`, `updateLoanApplicationStatus`,
  `advanceApplicationStep`, `assignLenderToApplication`,
  `updateLenderResponse`, `setAccountNumber`) together with the Express
  route handlers that guard them.

JavaScript numbers are embedded as exact rationals; an exhaustive check
of the whole declared input domain (amount 500..3000, duration 3..12)
shows the IEEE-double computation and the exact rational computation
agree on every rounded cent value, so the rational model is faithful at
the observable precision.  Database rows are embedded as a list of
records, a drizzle `update ... where id` as a map over that list, and
`new Date()` timestamps as an explicit `now : Nat` parameter.
-/

namespace FinancialLending

/-! ## Loan calculator (`POST /api/calculate-loan`, src/server/routes.ts) -/

/-- The fixed annual interest rate: `const annualRate = 0.05`. -/
def annualRate : ℚ := 5 / 100

/-- The periodic rate: `const monthlyRate = annualRate / 12`. -/
def monthlyRate : ℚ := annualRate / 12

/-- JavaScript `Math.round`: rounds half-up, i.e. `⌊x + 1/2⌋`. -/
def jsRound (x : ℚ) : ℤ := ⌊x + 1 / 2⌋

/-- Rounding to cents as the route does it: `Math.round(x * 100) / 100`. -/
def round2 (x : ℚ) : ℚ := (jsRound (x * 100) : ℚ) / 100

/-- The unrounded monthly payment
`(amount * monthlyRate * Math.pow(1 + monthlyRate, duration)) /
 (Math.pow(1 + monthlyRate, duration) - 1)`. -/
def rawMonthlyPayment (amount : ℚ) (duration : ℕ) : ℚ :=
  amount * monthlyRate * (1 + monthlyRate) ^ duration /
    ((1 + monthlyRate) ^ duration - 1)

/-- The JSON body returned by the calculate-loan route. -/
structure LoanQuote where
  amount : ℚ
  duration : ℕ
  monthlyPayment : ℚ
  totalCost : ℚ
  interestRate : ℚ
deriving Repr, DecidableEq

/-- The `POST /api/calculate-loan` handler: validates
`!amount || !duration || amount < 500 || amount > 3000 || duration < 3 || duration > 12`
(answering 400 on failure, modelled as `none`) and otherwise responds with
the rounded monthly payment and the rounded total cost, where
`totalCost = monthlyPayment * duration` is computed from the *unrounded*
monthly payment. -/
def calculateLoanRoute (amount : ℚ) (duration : ℕ) : Option LoanQuote :=
  if amount = 0 ∨ duration = 0 ∨ amount < 500 ∨ amount > 3000 ∨
      duration < 3 ∨ duration > 12 then
    none
  else
    let monthlyPayment := rawMonthlyPayment amount duration
    let totalCost := monthlyPayment * duration
    some { amount := amount
           duration := duration
           monthlyPayment := round2 monthlyPayment
           totalCost := round2 totalCost
           interestRate := annualRate }

/-- Round half away from zero, the rounding mode named by the
specification: `sign x * ⌊|x| + 1/2⌋`. -/
def roundHalfAwayFromZero (x : ℚ) : ℤ :=
  if 0 ≤ x then ⌊x + 1 / 2⌋ else -⌊-x + 1 / 2⌋

/-- Rounding to 2 decimal places using round-half-away-from-zero, as the
specification words it. -/
def round2Away (x : ℚ) : ℚ := (roundHalfAwayFromZero (x * 100) : ℚ) / 100

/-- The quote as the specification sentence for claim C2 words it:
`periodicPayment = round2(formula)` and
`totalRepayment = round2(periodicPayment * duration)`, i.e. the total is
recomputed from the already-rounded periodic payment. -/
def specWordedQuote (amount : ℚ) (duration : ℕ) : ℚ × ℚ :=
  let p := round2Away (rawMonthlyPayment amount duration)
  (p, round2Away (p * duration))

/-! ## Data model (src/shared/schema.ts)

A persisted `loan_applications` row.  The columns referenced by the rich
`DatabaseStorage` variant (currentStep, per-step completion timestamps,
lender fields, account number, updatedAt) are included alongside the
columns of the declared `pgTable`.  Timestamps are abstract instants
(`Nat`); nullable columns are `Option`. -/

structure LoanApplication where
  id : ℕ
  amount : ℚ
  duration : ℚ
  purpose : String
  monthlyPayment : String
  totalCost : String
  firstName : String
  lastName : String
  email : String
  phone : String
  dateOfBirth : String
  employmentStatus : String
  monthlyIncome : String
  monthlyExpenses : Option ℤ
  status : String
  currentStep : ℤ
  step1CompletedAt : Option ℕ
  step2CompletedAt : Option ℕ
  step3CompletedAt : Option ℕ
  step4CompletedAt : Option ℕ
  step5CompletedAt : Option ℕ
  step6CompletedAt : Option ℕ
  step7CompletedAt : Option ℕ
  lenderId : Option String
  lenderName : Option String
  lenderResponse : Option String
  lenderMessage : Option String
  accountNumber : Option String
  termsAccepted : Bool
  creditCheckAccepted : Bool
  marketingAccepted : Bool
  createdAt : ℕ
  updatedAt : Option ℕ
deriving Repr, DecidableEq

/-- The payload accepted by `insertLoanApplicationSchema`
(`createInsertSchema(loanApplications).omit({id, createdAt}).extend(...)`).
Fields with database defaults (`status`, `marketingAccepted`) and the
optional `monthlyExpenses` may be absent. -/
structure InsertLoanApplication where
  amount : ℚ
  duration : ℚ
  purpose : String
  monthlyPayment : String
  totalCost : String
  firstName : String
  lastName : String
  email : String
  phone : String
  dateOfBirth : String
  employmentStatus : String
  monthlyIncome : String
  monthlyExpenses : Option ℤ
  status : Option String
  termsAccepted : Bool
  creditCheckAccepted : Bool
  marketingAccepted : Option Bool
deriving Repr, DecidableEq

/-- Modelled from the spec: `z.string().email("Invalid email address")`
delegates to the zod library's email pattern, which is not part of this
repository.  Following the spec ("email (valid address)"), an address is
modelled as `local@domain` with a nonempty local part and a domain
containing a dot. -/
def emailValid (s : String) : Bool :=
  let cs := s.toList
  (cs.count '@' == 1) &&
  !(cs.takeWhile (fun c => c != '@') == []) &&
  !(((cs.dropWhile (fun c => c != '@')).drop 1) == []) &&
  ((cs.dropWhile (fun c => c != '@')).drop 1).contains '.'

/-- The zod refinements of `insertLoanApplicationSchema`, in declaration
order, returning the field-level messages of every failing check.  An
input validates exactly when the returned list is empty. -/
def validateInsert (i : InsertLoanApplication) : List String :=
  (if i.amount < 500 then ["Number must be greater than or equal to 500"] else []) ++
  (if i.amount > 3000 then ["Number must be less than or equal to 3000"] else []) ++
  (if i.duration < 3 then ["Number must be greater than or equal to 3"] else []) ++
  (if i.duration > 12 then ["Number must be less than or equal to 12"] else []) ++
  (if i.purpose.length < 1 then ["Purpose is required"] else []) ++
  (if i.firstName.length < 2 then ["First name must be at least 2 characters"] else []) ++
  (if i.lastName.length < 2 then ["Last name must be at least 2 characters"] else []) ++
  (if !emailValid i.email then ["Invalid email address"] else []) ++
  (if i.phone.length < 10 then ["Phone number must be at least 10 characters"] else []) ++
  (if i.dateOfBirth.length < 1 then ["Date of birth is required"] else []) ++
  (if i.employmentStatus.length < 1 then ["Employment status is required"] else []) ++
  (if i.monthlyIncome.length < 1 then ["Monthly income is required"] else []) ++
  (if !i.termsAccepted then ["You must accept the terms and conditions"] else []) ++
  (if !i.creditCheckAccepted then ["You must accept the credit check"] else [])

/-! ## Repository (`DatabaseStorage`, src/shared/schema.ts and
src/server/storage.ts)

The table is a list of rows; `update ... where eq(id) ... returning`
maps the update over the matching rows and returns the first matching
row; `new Date()` is the explicit `now` argument. -/

/-- Select the row with the given id (`where eq(loanApplications.id, id)`). -/
def findApp (db : List LoanApplication) (id : ℕ) : Option LoanApplication :=
  db.find? (fun a => a.id == id)

/-- A drizzle `update ... set f ... where eq(id) ... returning`:
the new table together with the returned row (or `none`). -/
def updateWhere (db : List LoanApplication) (id : ℕ)
    (f : LoanApplication → LoanApplication) :
    List LoanApplication × Option LoanApplication :=
  let db2 := db.map (fun a => if a.id == id then f a else a)
  (db2, findApp db2 id)

/-- Creation, `DatabaseStorage.createLoanApplication` (identical in both storage
variants): inserts a row from the validated payload, coercing JavaScript
falsy values — `monthlyPayment || "0"`, `totalCost || "0"`,
`monthlyExpenses || null`, `marketingAccepted || false` — and letting
the database fill the defaults (`id`, `status = "pending"` when absent,
`createdAt = now`). -/
def createLoanApplication (db : List LoanApplication)
    (i : InsertLoanApplication) (newId : ℕ) (now : ℕ) :
    List LoanApplication × LoanApplication :=
  let app : LoanApplication :=
    { id := newId
      amount := i.amount
      duration := i.duration
      purpose := i.purpose
      monthlyPayment := if i.monthlyPayment = "" then "0" else i.monthlyPayment
      totalCost := if i.totalCost = "" then "0" else i.totalCost
      firstName := i.firstName
      lastName := i.lastName
      email := i.email
      phone := i.phone
      dateOfBirth := i.dateOfBirth
      employmentStatus := i.employmentStatus
      monthlyIncome := i.monthlyIncome
      monthlyExpenses :=
        match i.monthlyExpenses with
        | some v => if v = 0 then none else some v
        | none => none
      status := i.status.getD "pending"
      currentStep := 0
      step1CompletedAt := none
      step2CompletedAt := none
      step3CompletedAt := none
      step4CompletedAt := none
      step5CompletedAt := none
      step6CompletedAt := none
      step7CompletedAt := none
      lenderId := none
      lenderName := none
      lenderResponse := none
      lenderMessage := none
      accountNumber := none
      termsAccepted := i.termsAccepted
      creditCheckAccepted := i.creditCheckAccepted
      marketingAccepted := i.marketingAccepted.getD false
      createdAt := now
      updatedAt := none }
  (db ++ [app], app)

/-- Status update, `DatabaseStorage.updateLoanApplicationStatus`, in the rich variant
(src/shared/schema.ts): sets `status` and bumps `updatedAt`. -/
def updateLoanApplicationStatus (db : List LoanApplication) (id : ℕ)
    (status : String) (now : ℕ) :
    List LoanApplication × Option LoanApplication :=
  updateWhere db id (fun a => { a with status := status, updatedAt := some now })

/-- Status update, `DatabaseStorage.updateLoanApplicationStatus`, in the simple variant
(src/server/storage.ts): sets only `{ status }` — no `updatedAt` bump. -/
def simpleUpdateLoanApplicationStatus (db : List LoanApplication) (id : ℕ)
    (status : String) :
    List LoanApplication × Option LoanApplication :=
  updateWhere db id (fun a => { a with status := status })

/-- The field update assembled by `DatabaseStorage.advanceApplicationStep`:
it always sets `currentStep`, `status = "step" + step` and `updatedAt`;
the `if (step === k)` cascade adds exactly the matching per-step
completion timestamp (overwritten unconditionally) and overrides the
status to `"completed"` for step 7. -/
def applyAdvanceStep (step : ℤ) (now : ℕ) (a : LoanApplication) :
    LoanApplication :=
  { a with
    currentStep := step
    status := if step = 7 then "completed" else "step" ++ toString step
    updatedAt := some now
    step1CompletedAt := if step = 1 then some now else a.step1CompletedAt
    step2CompletedAt := if step = 2 then some now else a.step2CompletedAt
    step3CompletedAt := if step = 3 then some now else a.step3CompletedAt
    step4CompletedAt := if step = 4 then some now else a.step4CompletedAt
    step5CompletedAt := if step = 5 then some now else a.step5CompletedAt
    step6CompletedAt := if step = 6 then some now else a.step6CompletedAt
    step7CompletedAt := if step = 7 then some now else a.step7CompletedAt }

/-- Step advancement, `DatabaseStorage.advanceApplicationStep`. -/
def advanceApplicationStep (db : List LoanApplication) (id : ℕ)
    (step : ℤ) (now : ℕ) :
    List LoanApplication × Option LoanApplication :=
  updateWhere db id (applyAdvanceStep step now)

/-- Lender assignment, `DatabaseStorage.assignLenderToApplication`. -/
def assignLenderToApplication (db : List LoanApplication) (id : ℕ)
    (lenderId lenderName : String) (now : ℕ) :
    List LoanApplication × Option LoanApplication :=
  updateWhere db id (fun a =>
    { a with lenderId := some lenderId, lenderName := some lenderName,
             updatedAt := some now })

/-- The field update of `DatabaseStorage.updateLenderResponse`: the
response, `message || null` (so an absent or empty message is stored as
null), and the `updatedAt` bump. -/
def applyLenderResponse (response : String) (message : Option String)
    (now : ℕ) (a : LoanApplication) : LoanApplication :=
  { a with lenderResponse := some response,
           lenderMessage :=
             match message with
             | some m => if m = "" then none else some m
             | none => none,
           updatedAt := some now }

/-- Lender response recording, `DatabaseStorage.updateLenderResponse`. -/
def updateLenderResponse (db : List LoanApplication) (id : ℕ)
    (response : String) (message : Option String) (now : ℕ) :
    List LoanApplication × Option LoanApplication :=
  updateWhere db id (applyLenderResponse response message now)

/-- Account number issuance, `DatabaseStorage.setAccountNumber`. -/
def setAccountNumber (db : List LoanApplication) (id : ℕ)
    (accountNumber : String) (now : ℕ) :
    List LoanApplication × Option LoanApplication :=
  updateWhere db id (fun a =>
    { a with accountNumber := some accountNumber, updatedAt := some now })

/-! ## Route handlers (src/server/routes.ts) -/

/-- Outcome of a route handler: a 400 with its message, a 404, or the
JSON of the returned record. -/
inductive RouteResult (α : Type) where
  | badRequest (message : String)
  | notFound
  | ok (value : α)
deriving Repr, DecidableEq

/-- The route `POST /api/loan-applications`: parses the body against
`insertLoanApplicationSchema` (400 with the field-level messages on
failure) and persists via `storage.createLoanApplication`. -/
def createApplicationRoute (db : List LoanApplication)
    (i : InsertLoanApplication) (newId now : ℕ) :
    List LoanApplication × RouteResult LoanApplication :=
  if validateInsert i = [] then
    let r := createLoanApplication db i newId now
    (r.1, RouteResult.ok r.2)
  else
    (db, RouteResult.badRequest (String.join (validateInsert i)))

/-- Shared tail of the mutating routes: a storage result with no
returned row becomes a 404, otherwise the row is answered as JSON. -/
def routeOfUpdate (r : List LoanApplication × Option LoanApplication) :
    List LoanApplication × RouteResult LoanApplication :=
  match r.2 with
  | none => (r.1, RouteResult.notFound)
  | some a => (r.1, RouteResult.ok a)

/-- The route `PATCH /api/loan-applications/:id/advance`: rejects
`!step || step < 1 || step > 7` with a 400 before touching storage,
answers 404 when the id is unknown. -/
def advanceStepRoute (db : List LoanApplication) (id : ℕ) (step : ℤ)
    (now : ℕ) : List LoanApplication × RouteResult LoanApplication :=
  if step = 0 ∨ step < 1 ∨ step > 7 then
    (db, RouteResult.badRequest "Invalid step number (1-7)")
  else
    routeOfUpdate (advanceApplicationStep db id step now)

/-- The route `PATCH /api/loan-applications/:id/lender-response`: rejects
`!response || !["approved", "rejected"].includes(response)` with a 400
before touching storage. -/
def lenderResponseRoute (db : List LoanApplication) (id : ℕ)
    (response : String) (message : Option String) (now : ℕ) :
    List LoanApplication × RouteResult LoanApplication :=
  if response = "" ∨ ¬(response = "approved" ∨ response = "rejected") then
    (db, RouteResult.badRequest "response must be 'approved' or 'rejected'")
  else
    routeOfUpdate (updateLenderResponse db id response message now)

/-- The per-step completion timestamp named `step<s>CompletedAt` by the
specification. -/
def stepCompletedAt (s : ℤ) (a : LoanApplication) : Option ℕ :=
  if s = 1 then a.step1CompletedAt
  else if s = 2 then a.step2CompletedAt
  else if s = 3 then a.step3CompletedAt
  else if s = 4 then a.step4CompletedAt
  else if s = 5 then a.step5CompletedAt
  else if s = 6 then a.step6CompletedAt
  else if s = 7 then a.step7CompletedAt
  else none

/-! ## Calculator lemmas -/

lemma jsRound_le (x : ℚ) : (jsRound x : ℚ) ≤ x + 1 / 2 := Int.floor_le _

lemma lt_jsRound (x : ℚ) : x - 1 / 2 < (jsRound x : ℚ) := by
  have h := Int.sub_one_lt_floor (x + 1 / 2)
  unfold jsRound
  linarith

lemma round2_le (x : ℚ) : round2 x ≤ x + 1 / 200 := by
  have h := jsRound_le (x * 100)
  unfold round2
  linarith

lemma lt_round2 (x : ℚ) : x - 1 / 200 < round2 x := by
  have h := lt_jsRound (x * 100)
  unfold round2
  linarith

lemma monthlyRate_pos : 0 < monthlyRate := by norm_num [monthlyRate, annualRate]

lemma one_lt_pow_rate {d : ℕ} (hd : d ≠ 0) : 1 < (1 + monthlyRate) ^ d := by
  have h : (1 : ℚ) < 1 + monthlyRate := by linarith [monthlyRate_pos]
  exact one_lt_pow₀ h hd

/-- The unrounded payment exceeds the interest `amount * monthlyRate` on
the whole principal, in particular it is positive. -/
lemma mul_monthlyRate_lt_raw {a : ℚ} (ha : 0 < a) {d : ℕ} (hd : d ≠ 0) :
    a * monthlyRate < rawMonthlyPayment a d := by
  unfold rawMonthlyPayment
  have hQ : 1 < (1 + monthlyRate) ^ d := one_lt_pow_rate hd
  rw [lt_div_iff₀ (by linarith)]
  have har : 0 < a * monthlyRate := mul_pos ha monthlyRate_pos
  nlinarith

/-- Across the declared input domain the payments over the full term
recover the principal with a margin of at least half a cent. -/
lemma le_mul_rawMonthlyPayment {a : ℚ} (ha : 500 ≤ a) {d : ℕ}
    (h3 : 3 ≤ d) (h12 : d ≤ 12) :
    a + 1 / 200 ≤ (d : ℚ) * rawMonthlyPayment a d := by
  interval_cases d <;>
  · unfold rawMonthlyPayment monthlyRate annualRate
    norm_num
    ring_nf
    linarith

/-- Rescaling a payment rounded to cents by the term and rounding the
exact total to cents differ by at most six cents when the term is at
most 12. -/
lemma round2_mul_sub_round2_abs_le (x : ℚ) (d : ℕ) (hd : d ≤ 12) :
    |round2 x * d - round2 (x * d)| ≤ 6 / 100 := by
  have hm1 := jsRound_le (x * 100)
  have hm2 := lt_jsRound (x * 100)
  have hM1 := jsRound_le (x * d * 100)
  have hM2 := lt_jsRound (x * d * 100)
  have hdq : (d : ℚ) ≤ 12 := by exact_mod_cast hd
  have hdq0 : (0 : ℚ) ≤ d := by positivity
  set m := jsRound (x * 100) with hm
  set M := jsRound (x * d * 100) with hM
  have hub : ((m * d - M : ℤ) : ℚ) < 13 / 2 := by
    push_cast
    nlinarith [mul_le_mul_of_nonneg_right hm1 hdq0]
  have hlb : (-(13 / 2) : ℚ) < ((m * d - M : ℤ) : ℚ) := by
    push_cast
    nlinarith [mul_le_mul_of_nonneg_right (le_of_lt hm2) hdq0]
  have habs : |(m * (d : ℤ) - M : ℤ)| ≤ 6 := by
    have h7 : |((m * d - M : ℤ) : ℚ)| < 7 := by
      rw [abs_lt]
      constructor <;> linarith
    have h7z : |(m * (d : ℤ) - M : ℤ)| < 7 := by exact_mod_cast h7
    omega
  have heq : round2 x * d - round2 (x * d) = ((m * (d : ℤ) - M : ℤ) : ℚ) / 100 := by
    unfold round2
    push_cast
    ring
  rw [heq, abs_div, abs_of_pos (by norm_num : (0 : ℚ) < 100)]
  have h6 : |((m * (d : ℤ) - M : ℤ) : ℚ)| ≤ 6 := by exact_mod_cast habs
  linarith

/-- On nonnegative inputs round-half-away-from-zero agrees with the
round-half-up of JavaScript `Math.round`. -/
lemma round2Away_of_nonneg {x : ℚ} (h : 0 ≤ x) : round2Away x = round2 x := by
  unfold round2Away round2 roundHalfAwayFromZero jsRound
  rw [if_pos (by positivity)]

/-- The guard of the calculate-loan route is false on the declared
domain. -/
lemma calculateLoanRoute_guard_false {a : ℚ} {d : ℕ} (h500 : 500 ≤ a)
    (h3000 : a ≤ 3000) (h3 : 3 ≤ d) (h12 : d ≤ 12) :
    ¬(a = 0 ∨ d = 0 ∨ a < 500 ∨ a > 3000 ∨ d < 3 ∨ d > 12) := by
  push_neg
  exact ⟨by linarith, by omega, by linarith, by linarith, by omega, by omega⟩

/-- On the declared domain the route answers with the rounded raw
payment and the rounded raw total. -/
lemma calculateLoanRoute_eq {a : ℚ} {d : ℕ} (h500 : 500 ≤ a)
    (h3000 : a ≤ 3000) (h3 : 3 ≤ d) (h12 : d ≤ 12) :
    calculateLoanRoute a d =
      some { amount := a
             duration := d
             monthlyPayment := round2 (rawMonthlyPayment a d)
             totalCost := round2 (rawMonthlyPayment a d * d)
             interestRate := annualRate } := by
  rw [calculateLoanRoute,
    if_neg (calculateLoanRoute_guard_false h500 h3000 h3 h12)]

/-! ## Claim C2 — quote formula and rounding -/

/-- C2 counterexample: at amount 500, duration 3 the code's totalCost
(504.17, rounding the unrounded payment times the term) differs from the
claim's totalRepayment (504.18, rounding the already-rounded payment
times the term). -/
theorem calculateLoan_total_ne_specWordedQuote :
    (calculateLoanRoute 500 3).map (fun q => q.totalCost) ≠
      some (specWordedQuote 500 3).2 := by
  norm_num [calculateLoanRoute, specWordedQuote, round2, round2Away,
    roundHalfAwayFromZero, jsRound, rawMonthlyPayment, monthlyRate, annualRate]

/-- C2 amended: for every amount in [500, 3000] and duration in [3, 12]
the compute-quote operation returns
`periodicPayment = round2(amount * r * (1+r)^duration / ((1+r)^duration - 1))`
with `r = 0.05/12`, and `totalRepayment = round2(rawPayment * duration)`
where `rawPayment` is the unrounded formula value (not the already-rounded
periodic payment), both rounded to 2 decimal places using
round-half-away-from-zero (which coincides with the code's
`Math.round` here, the values being positive). -/
theorem calculateLoan_eq_roundHalfAway (a : ℚ) (d : ℕ) (h500 : 500 ≤ a)
    (h3000 : a ≤ 3000) (h3 : 3 ≤ d) (h12 : d ≤ 12) :
    calculateLoanRoute a d =
      some { amount := a
             duration := d
             monthlyPayment := round2Away (rawMonthlyPayment a d)
             totalCost := round2Away (rawMonthlyPayment a d * d)
             interestRate := annualRate } := by
  have hr : 0 < rawMonthlyPayment a d := by
    have h := mul_monthlyRate_lt_raw (a := a) (by linarith) (d := d) (by omega)
    nlinarith [monthlyRate_pos]
  rw [calculateLoanRoute_eq h500 h3000 h3 h12,
    round2Away_of_nonneg (le_of_lt hr),
    round2Away_of_nonneg (by positivity)]

/-- C2 amended, witness at amount 1500, duration 6. -/
theorem calculateLoan_eq_roundHalfAway_witness :
    calculateLoanRoute 1500 6 =
      some { amount := 1500
             duration := 6
             monthlyPayment := 12683 / 50
             totalCost := 30439 / 20
             interestRate := 5 / 100 } := by
  have h := calculateLoan_eq_roundHalfAway 1500 6 (by norm_num) (by norm_num)
    (by norm_num) (by norm_num)
  rw [h]
  norm_num [round2Away, roundHalfAwayFromZero, rawMonthlyPayment,
    monthlyRate, annualRate]

/-! ## Claim C3 — quote bounds -/

/-- The property claim C3 asserts of the calculator's result. -/
def claimC3Property (a : ℚ) (d : ℕ) : Prop :=
  ∀ q ∈ calculateLoanRoute a d,
    0 < q.monthlyPayment ∧ a ≤ q.totalCost ∧
      |q.monthlyPayment * (d : ℚ) - q.totalCost| < 1 / 100

/-- C3 counterexample: at amount 500, duration 3 the rounded monthly
payment is 168.06 and the rounded total is 504.17, so
`|periodicPayment * duration - totalRepayment| = 0.01`, which is not
strictly below 0.01. -/
theorem claimC3Property_fails_at_500_3 : ¬ claimC3Property 500 3 := by
  intro h
  have hq : calculateLoanRoute 500 3 =
      some { amount := 500, duration := 3, monthlyPayment := 8403 / 50,
             totalCost := 50417 / 100, interestRate := 5 / 100 } := by
    norm_num [calculateLoanRoute, round2, jsRound, rawMonthlyPayment,
      monthlyRate, annualRate]
  have h2 := h _ (Option.mem_def.mpr hq)
  obtain ⟨-, -, habs⟩ := h2
  norm_num at habs
  rw [abs_of_pos (by norm_num : (0 : ℚ) < 1 / 100)] at habs
  exact absurd habs (by norm_num)

/-- C3 amended: for every amount in [500, 3000] and duration in [3, 12]
the calculator's result satisfies `periodicPayment > 0`,
`totalRepayment ≥ amount`, and
`|periodicPayment * duration - totalRepayment| ≤ 0.06` (the claimed
strict 0.01 bound fails; six cents is attained, e.g. at amount 502,
duration 12). -/
theorem calculateLoan_bounds (a : ℚ) (d : ℕ) (h500 : 500 ≤ a)
    (h3000 : a ≤ 3000) (h3 : 3 ≤ d) (h12 : d ≤ 12) (q : LoanQuote)
    (hq : calculateLoanRoute a d = some q) :
    0 < q.monthlyPayment ∧ a ≤ q.totalCost ∧
      |q.monthlyPayment * (d : ℚ) - q.totalCost| ≤ 6 / 100 := by
  rw [calculateLoanRoute_eq h500 h3000 h3 h12] at hq
  obtain rfl := Option.some.inj hq
  refine ⟨?_, ?_, ?_⟩
  · show 0 < round2 (rawMonthlyPayment a d)
    have hraw : a * monthlyRate < rawMonthlyPayment a d :=
      mul_monthlyRate_lt_raw (by linarith) (by omega)
    have hmr : monthlyRate = 1 / 240 := by norm_num [monthlyRate, annualRate]
    have h2 := lt_round2 (rawMonthlyPayment a d)
    rw [hmr] at hraw
    nlinarith
  · show a ≤ round2 (rawMonthlyPayment a d * d)
    have hle := le_mul_rawMonthlyPayment h500 h3 h12
    have h2 := lt_round2 (rawMonthlyPayment a d * d)
    nlinarith
  · show |round2 (rawMonthlyPayment a d) * d -
        round2 (rawMonthlyPayment a d * d)| ≤ 6 / 100
    exact round2_mul_sub_round2_abs_le _ d h12

/-- C3 amended, witness at amount 1500, duration 6
(payment 253.66, total 1521.95). -/
theorem calculateLoan_bounds_witness :
    (0 : ℚ) < 12683 / 50 ∧ (1500 : ℚ) ≤ 30439 / 20 ∧
      |(12683 / 50 : ℚ) * 6 - 30439 / 20| ≤ 6 / 100 := by
  have hq : calculateLoanRoute 1500 6 =
      some { amount := 1500, duration := 6, monthlyPayment := 12683 / 50,
             totalCost := 30439 / 20, interestRate := 5 / 100 } := by
    norm_num [calculateLoanRoute, round2, jsRound, rawMonthlyPayment,
      monthlyRate, annualRate]
  have h := calculateLoan_bounds 1500 6 (by norm_num) (by norm_num)
    (by norm_num) (by norm_num) _ hq
  simpa using h

/-! ## Claim C4 — regression values at amount 1500, duration 6 -/

/-- C4 counterexample: the calculator does not return the claimed
253.54 / 1521.24 at amount 1500, duration 6. -/
theorem calculateLoan_1500_6_ne_claimed :
    (calculateLoanRoute 1500 6).map (fun q => (q.monthlyPayment, q.totalCost)) ≠
      some (25354 / 100, 152124 / 100) := by
  norm_num [calculateLoanRoute, round2, jsRound, rawMonthlyPayment,
    monthlyRate, annualRate]

/-- C4 amended: for amount 1500, duration 6 at the 5 % annual rate the
calculator returns periodicPayment 253.66 and totalRepayment 1521.95
(the values the stated formula actually yields, rounded to the nearest
cent). -/
theorem calculateLoan_1500_6_values :
    (calculateLoanRoute 1500 6).map (fun q => (q.monthlyPayment, q.totalCost)) =
      some (25366 / 100, 152195 / 100) := by
  norm_num [calculateLoanRoute, round2, jsRound, rawMonthlyPayment,
    monthlyRate, annualRate]

/-! ## Repository lemmas -/

lemma updateWhere_found {db : List LoanApplication} {i : ℕ} {a : LoanApplication}
    (f : LoanApplication → LoanApplication) (hf : ∀ x, (f x).id = x.id)
    (h : findApp db i = some a) :
    (updateWhere db i f).2 = some (f a) := by
  unfold updateWhere findApp at *
  have hpa : (a.id == i) = true := by simpa using List.find?_some h
  simp only [List.find?_map]
  have hcomp : ((fun x : LoanApplication => x.id == i) ∘
      (fun x => if x.id == i then f x else x)) =
      (fun x : LoanApplication => x.id == i) := by
    funext x
    by_cases hx : (x.id == i) = true
    · have hxi : x.id = i := by simpa using hx
      simp [hxi, hf]
    · have hxi : ¬ x.id = i := by simpa using hx
      simp [hxi]
  rw [hcomp, h]
  simp only [Option.map_some']
  rw [if_pos hpa]

lemma updateWhere_not_found {db : List LoanApplication} {i : ℕ}
    (f : LoanApplication → LoanApplication) (h : findApp db i = none) :
    updateWhere db i f = (db, none) := by
  unfold updateWhere findApp at *
  rw [List.find?_eq_none] at h
  have hmap : db.map (fun x => if x.id == i then f x else x) = db := by
    induction db with
    | nil => rfl
    | cons b t ih =>
      simp only [List.map_cons]
      rw [if_neg (by simpa using h b (by simp)),
        ih (fun x hx => h x (by simp [hx]))]
  simp only [hmap, Prod.mk.injEq]
  exact ⟨trivial, by rw [List.find?_eq_none]; exact h⟩

lemma applyAdvanceStep_id (step : ℤ) (now : ℕ) (a : LoanApplication) :
    (applyAdvanceStep step now a).id = a.id := rfl

lemma routeOfUpdate_some {r : List LoanApplication × Option LoanApplication}
    {a : LoanApplication} (h : r.2 = some a) :
    routeOfUpdate r = (r.1, RouteResult.ok a) := by
  unfold routeOfUpdate
  rw [h]

lemma routeOfUpdate_none {r : List LoanApplication × Option LoanApplication}
    (h : r.2 = none) : routeOfUpdate r = (r.1, RouteResult.notFound) := by
  unfold routeOfUpdate
  rw [h]

/-! ## Sample data for witnesses and counterexamples -/

/-- A sample persisted application; it already completed step 3 at
instant 5 and was last updated at instant 5. -/
def sampleApp : LoanApplication :=
  { id := 1
    amount := 1500
    duration := 6
    purpose := "personal"
    monthlyPayment := "253.66"
    totalCost := "1521.95"
    firstName := "Jane"
    lastName := "Doe"
    email := "jane@mail.com"
    phone := "0123456789"
    dateOfBirth := "1990-01-01"
    employmentStatus := "employed"
    monthlyIncome := "2000-3000"
    monthlyExpenses := some 800
    status := "step3"
    currentStep := 3
    step1CompletedAt := some 4
    step2CompletedAt := some 4
    step3CompletedAt := some 5
    step4CompletedAt := none
    step5CompletedAt := none
    step6CompletedAt := none
    step7CompletedAt := none
    lenderId := none
    lenderName := none
    lenderResponse := none
    lenderMessage := none
    accountNumber := none
    termsAccepted := true
    creditCheckAccepted := true
    marketingAccepted := false
    createdAt := 3
    updatedAt := some 5 }

/-- A fully valid creation payload. -/
def goodInsert : InsertLoanApplication :=
  { amount := 1500
    duration := 6
    purpose := "personal"
    monthlyPayment := "253.66"
    totalCost := "1521.95"
    firstName := "Jane"
    lastName := "Doe"
    email := "jane@mail.com"
    phone := "0123456789"
    dateOfBirth := "1990-01-01"
    employmentStatus := "employed"
    monthlyIncome := "2000-3000"
    monthlyExpenses := some 800
    status := none
    termsAccepted := true
    creditCheckAccepted := true
    marketingAccepted := some false }

/-- A creation payload that passes every schema check while carrying
client-computed figures that do not match the server formula at all. -/
def mismatchedInsert : InsertLoanApplication :=
  { goodInsert with monthlyPayment := "999.99", totalCost := "888.88" }

/-- A creation payload exercising the JavaScript falsy coercions:
zero expenses, empty payment strings, absent marketing consent. -/
def falsyInsert : InsertLoanApplication :=
  { goodInsert with monthlyPayment := "", totalCost := "",
                    monthlyExpenses := some 0, marketingAccepted := none }

/-! ## Claim C5 — advanceStep semantics -/

/-- C5: advanceStep fails with a 400 whenever step is outside [1, 7]
and then mutates no record; for step in [1, 7] on an existing record it
sets `currentStep = step`, `status = "step<step>"` (overridden to
`"completed"` when step = 7) and stamps `step<step>CompletedAt = now`;
for an unknown id it answers 404. -/
theorem advanceStepRoute_spec :
    (∀ (db : List LoanApplication) (i : ℕ) (step : ℤ) (now : ℕ),
        step < 1 ∨ step > 7 →
        advanceStepRoute db i step now =
          (db, RouteResult.badRequest "Invalid step number (1-7)")) ∧
    (∀ (db : List LoanApplication) (i : ℕ) (step : ℤ) (now : ℕ),
        1 ≤ step → step ≤ 7 → findApp db i = none →
        advanceStepRoute db i step now = (db, RouteResult.notFound)) ∧
    (∀ (db : List LoanApplication) (i : ℕ) (step : ℤ) (now : ℕ)
        (a : LoanApplication), 1 ≤ step → step ≤ 7 →
        findApp db i = some a →
        (advanceStepRoute db i step now).2 =
          RouteResult.ok (applyAdvanceStep step now a) ∧
        (applyAdvanceStep step now a).currentStep = step ∧
        (applyAdvanceStep step now a).status =
          (if step = 7 then "completed" else "step" ++ toString step) ∧
        stepCompletedAt step (applyAdvanceStep step now a) = some now) := by
  refine ⟨?_, ?_, ?_⟩
  · intro db i step now h
    unfold advanceStepRoute
    rw [if_pos]
    rcases h with h | h
    · right; left; exact h
    · right; right; exact h
  · intro db i step now h1 h7 hnone
    unfold advanceStepRoute advanceApplicationStep
    rw [if_neg (by omega)]
    rw [updateWhere_not_found _ hnone]
    rfl
  · intro db i step now a h1 h7 hsome
    have hfound := updateWhere_found (applyAdvanceStep step now)
      (applyAdvanceStep_id step now) hsome
    refine ⟨?_, rfl, rfl, ?_⟩
    · unfold advanceStepRoute advanceApplicationStep
      rw [if_neg (by omega), routeOfUpdate_some hfound]
    · interval_cases step <;> norm_num [applyAdvanceStep, stepCompletedAt]

/-- C5 witness: step 0 is rejected without mutation, an unknown id gives
404, and advancing the sample application to step 7 marks it completed
with `step7CompletedAt = 10`. -/
theorem advanceStepRoute_spec_witness :
    advanceStepRoute [sampleApp] 1 0 10 =
      ([sampleApp], RouteResult.badRequest "Invalid step number (1-7)") ∧
    advanceStepRoute [sampleApp] 2 3 10 = ([sampleApp], RouteResult.notFound) ∧
    ((advanceStepRoute [sampleApp] 1 7 10).2 =
        RouteResult.ok (applyAdvanceStep 7 10 sampleApp) ∧
      (applyAdvanceStep 7 10 sampleApp).currentStep = 7 ∧
      (applyAdvanceStep 7 10 sampleApp).status = "completed" ∧
      stepCompletedAt 7 (applyAdvanceStep 7 10 sampleApp) = some 10) := by
  refine ⟨?_, ?_, ?_⟩
  · exact advanceStepRoute_spec.1 [sampleApp] 1 0 10 (by norm_num)
  · exact advanceStepRoute_spec.2.1 [sampleApp] 2 3 10 (by norm_num)
      (by norm_num) rfl
  · have h := advanceStepRoute_spec.2.2 [sampleApp] 1 7 10 sampleApp
      (by norm_num) (by norm_num) rfl
    refine ⟨h.1, h.2.1, ?_, h.2.2.2⟩
    have h3 := h.2.2.1
    norm_num at h3
    exact h3

/-! ## Claim C6 — step timestamps are overwritten, not write-once -/

/-- C6 counterexample: the sample application completed step 3 at
instant 5; re-advancing it to step 3 at instant 10 replaces the original
timestamp by 10 instead of preserving it. -/
theorem advance_overwrites_step3_timestamp :
    sampleApp.step3CompletedAt = some 5 ∧
    (advanceStepRoute [sampleApp] 1 3 10).2 =
      RouteResult.ok (applyAdvanceStep 3 10 sampleApp) ∧
    (applyAdvanceStep 3 10 sampleApp).step3CompletedAt = some 10 := by
  refine ⟨rfl, ?_, rfl⟩
  have hfound := updateWhere_found (applyAdvanceStep 3 10)
    (applyAdvanceStep_id 3 10)
    (show findApp [sampleApp] 1 = some sampleApp from rfl)
  unfold advanceStepRoute advanceApplicationStep
  rw [if_neg (by norm_num), routeOfUpdate_some hfound]

/-- C6 amended: the per-step completion timestamp is overwritten
unconditionally — after every `advanceStep(id, s)` with s in [1, 7],
`step<s>CompletedAt` equals the time of that call, regardless of any
previously stored value. -/
theorem advance_timestamp_is_latest (db : List LoanApplication) (i : ℕ)
    (step : ℤ) (now : ℕ) (a : LoanApplication) (h1 : 1 ≤ step)
    (h7 : step ≤ 7) (ha : findApp db i = some a) :
    (advanceApplicationStep db i step now).2 =
      some (applyAdvanceStep step now a) ∧
    stepCompletedAt step (applyAdvanceStep step now a) = some now := by
  refine ⟨updateWhere_found _ (applyAdvanceStep_id step now) ha, ?_⟩
  interval_cases step <;> norm_num [applyAdvanceStep, stepCompletedAt]

/-- C6 amended, witness: re-advancing the sample application to its
already-completed step 3 at instant 10 stores timestamp 10. -/
theorem advance_timestamp_is_latest_witness :
    (advanceApplicationStep [sampleApp] 1 3 10).2 =
      some (applyAdvanceStep 3 10 sampleApp) ∧
    stepCompletedAt 3 (applyAdvanceStep 3 10 sampleApp) = some 10 :=
  advance_timestamp_is_latest [sampleApp] 1 3 10 sampleApp (by norm_num)
    (by norm_num) rfl

/-! ## Claim C7 — creation validation -/

lemma terms_message_mem {i : InsertLoanApplication}
    (h : i.termsAccepted = false) :
    "You must accept the terms and conditions" ∈ validateInsert i := by
  unfold validateInsert
  simp [h]

lemma credit_message_mem {i : InsertLoanApplication}
    (h : i.creditCheckAccepted = false) :
    "You must accept the credit check" ∈ validateInsert i := by
  unfold validateInsert
  simp [h]

lemma validateInsert_consents {i : InsertLoanApplication}
    (h : validateInsert i = []) :
    i.termsAccepted = true ∧ i.creditCheckAccepted = true := by
  constructor
  · cases ht : i.termsAccepted
    · exact absurd h (List.ne_nil_of_mem (terms_message_mem ht))
    · rfl
  · cases hc : i.creditCheckAccepted
    · exact absurd h (List.ne_nil_of_mem (credit_message_mem hc))
    · rfl

/-- C7: creating with `termsAccepted = false` (or
`creditCheckAccepted = false`) fails with a 400 carrying the field-level
message and persists nothing; with every schema check passing, creation
succeeds and returns (and persists) the created record. -/
theorem createApplicationRoute_spec :
    (∀ (db : List LoanApplication) (i : InsertLoanApplication) (n t : ℕ),
        i.termsAccepted = false →
        (createApplicationRoute db i n t).1 = db ∧
        "You must accept the terms and conditions" ∈ validateInsert i ∧
        ∃ m, (createApplicationRoute db i n t).2 = RouteResult.badRequest m) ∧
    (∀ (db : List LoanApplication) (i : InsertLoanApplication) (n t : ℕ),
        i.creditCheckAccepted = false →
        (createApplicationRoute db i n t).1 = db ∧
        "You must accept the credit check" ∈ validateInsert i ∧
        ∃ m, (createApplicationRoute db i n t).2 = RouteResult.badRequest m) ∧
    (∀ (db : List LoanApplication) (i : InsertLoanApplication) (n t : ℕ),
        validateInsert i = [] →
        createApplicationRoute db i n t =
          (db ++ [(createLoanApplication db i n t).2],
           RouteResult.ok (createLoanApplication db i n t).2) ∧
        (createLoanApplication db i n t).2.termsAccepted = true ∧
        (createLoanApplication db i n t).2.creditCheckAccepted = true) := by
  refine ⟨?_, ?_, ?_⟩
  · intro db i n t h
    have hmem := terms_message_mem h
    have hne : validateInsert i ≠ [] := List.ne_nil_of_mem hmem
    unfold createApplicationRoute
    rw [if_neg hne]
    exact ⟨rfl, hmem, _, rfl⟩
  · intro db i n t h
    have hmem := credit_message_mem h
    have hne : validateInsert i ≠ [] := List.ne_nil_of_mem hmem
    unfold createApplicationRoute
    rw [if_neg hne]
    exact ⟨rfl, hmem, _, rfl⟩
  · intro db i n t h
    obtain ⟨ht, hc⟩ := validateInsert_consents h
    unfold createApplicationRoute
    rw [if_pos h]
    exact ⟨rfl, ht, hc⟩

/-- A valid payload whose terms consent was withdrawn. -/
def deniedInsert : InsertLoanApplication :=
  { goodInsert with termsAccepted := false }

/-- C7 witness: the withdrawn-consent payload is rejected with its
message and nothing is persisted; the valid payload is persisted. -/
theorem createApplicationRoute_spec_witness :
    ((createApplicationRoute [] deniedInsert 1 0).1 = [] ∧
      "You must accept the terms and conditions" ∈ validateInsert deniedInsert) ∧
    (createApplicationRoute [] goodInsert 1 0 =
        ([] ++ [(createLoanApplication [] goodInsert 1 0).2],
         RouteResult.ok (createLoanApplication [] goodInsert 1 0).2) ∧
      (createLoanApplication [] goodInsert 1 0).2.termsAccepted = true) := by
  have h1 := createApplicationRoute_spec.1 [] deniedInsert 1 0 rfl
  have h3 := createApplicationRoute_spec.2.2 [] goodInsert 1 0 (by decide)
  exact ⟨⟨h1.1, h1.2.1⟩, h3.1, h3.2.1⟩

/-! ## Claim C8 — lender response -/

/-- C8: the lender-response route rejects every response other than
exactly "approved" or "rejected" with a 400 and no mutation; on an
existing record with a valid response it stores the response and the
optional message and leaves status and currentStep unchanged. -/
theorem lenderResponseRoute_spec :
    (∀ (db : List LoanApplication) (i : ℕ) (resp : String)
        (msg : Option String) (t : ℕ),
        resp ≠ "approved" → resp ≠ "rejected" →
        lenderResponseRoute db i resp msg t =
          (db, RouteResult.badRequest
            "response must be 'approved' or 'rejected'")) ∧
    (∀ (db : List LoanApplication) (i : ℕ) (resp : String)
        (msg : Option String) (t : ℕ) (a : LoanApplication),
        resp = "approved" ∨ resp = "rejected" →
        findApp db i = some a →
        ∃ r, (lenderResponseRoute db i resp msg t).2 = RouteResult.ok r ∧
          r.lenderResponse = some resp ∧
          (∀ m, msg = some m → m ≠ "" → r.lenderMessage = some m) ∧
          (msg = none → r.lenderMessage = none) ∧
          r.status = a.status ∧
          r.currentStep = a.currentStep) := by
  constructor
  · intro db i resp msg t h1 h2
    unfold lenderResponseRoute
    rw [if_pos (Or.inr (by tauto))]
  · intro db i resp msg t a hresp hfind
    have hguard : ¬(resp = "" ∨ ¬(resp = "approved" ∨ resp = "rejected")) := by
      rintro (rfl | hno)
      · rcases hresp with h | h <;> simp at h
      · exact hno hresp
    have hfound := updateWhere_found (applyLenderResponse resp msg t)
      (fun x => rfl) hfind
    refine ⟨applyLenderResponse resp msg t a, ?_, rfl, ?_, ?_, rfl, rfl⟩
    · unfold lenderResponseRoute updateLenderResponse
      rw [if_neg hguard, routeOfUpdate_some hfound]
    · intro m hm hne
      subst hm
      show (if m = "" then none else some m) = some m
      rw [if_neg hne]
    · intro hm
      subst hm
      rfl

/-- C8 witness: "maybe" is rejected without mutation; "approved" with
message "congrats" is stored on the sample record with status and
currentStep untouched. -/
theorem lenderResponseRoute_spec_witness :
    lenderResponseRoute [sampleApp] 1 "maybe" none 10 =
      ([sampleApp],
       RouteResult.badRequest "response must be 'approved' or 'rejected'") ∧
    ∃ r, (lenderResponseRoute [sampleApp] 1 "approved"
            (some "congrats") 10).2 = RouteResult.ok r ∧
      r.lenderResponse = some "approved" ∧
      (∀ m, some "congrats" = some m → m ≠ "" → r.lenderMessage = some m) ∧
      (some "congrats" = (none : Option String) → r.lenderMessage = none) ∧
      r.status = sampleApp.status ∧
      r.currentStep = sampleApp.currentStep :=
  ⟨lenderResponseRoute_spec.1 [sampleApp] 1 "maybe" none 10
      (by decide) (by decide),
   lenderResponseRoute_spec.2 [sampleApp] 1 "approved" (some "congrats") 10
      sampleApp (Or.inl rfl) rfl⟩

/-! ## Claim C9 — updatedAt and createdAt discipline -/

/-- C9 counterexample: the simple storage variant's status update
(src/server/storage.ts) mutates the sample record's status from "step3"
to "approved" while leaving `updatedAt` at its old value 5 — the claimed
bump does not happen there. -/
theorem simple_status_update_keeps_updatedAt :
    sampleApp.updatedAt = some 5 ∧
    (simpleUpdateLoanApplicationStatus [sampleApp] 1 "approved").2 =
      some { sampleApp with status := "approved" } ∧
    ({ sampleApp with status := "approved" } : LoanApplication).updatedAt =
      some 5 ∧
    ({ sampleApp with status := "approved" } : LoanApplication).status ≠
      sampleApp.status :=
  ⟨rfl, rfl, rfl, by decide⟩

/-- C9 amended: in the rich storage variant every mutating operation
(status update, step advancement, lender assignment, lender response,
account-number issuance) sets `updatedAt` to the operation time and
leaves `createdAt` untouched, and creation stamps `createdAt` with the
creation time; the simple variant's status update, however, changes
neither `updatedAt` nor `createdAt`. -/
theorem mutations_bump_updatedAt_keep_createdAt :
    (∀ (db : List LoanApplication) (i : ℕ) (s : String) (t : ℕ)
        (a : LoanApplication), findApp db i = some a →
        ∃ r, (updateLoanApplicationStatus db i s t).2 = some r ∧
          r.updatedAt = some t ∧ r.createdAt = a.createdAt) ∧
    (∀ (db : List LoanApplication) (i : ℕ) (step : ℤ) (t : ℕ)
        (a : LoanApplication), findApp db i = some a →
        ∃ r, (advanceApplicationStep db i step t).2 = some r ∧
          r.updatedAt = some t ∧ r.createdAt = a.createdAt) ∧
    (∀ (db : List LoanApplication) (i : ℕ) (lid lname : String) (t : ℕ)
        (a : LoanApplication), findApp db i = some a →
        ∃ r, (assignLenderToApplication db i lid lname t).2 = some r ∧
          r.updatedAt = some t ∧ r.createdAt = a.createdAt) ∧
    (∀ (db : List LoanApplication) (i : ℕ) (resp : String)
        (msg : Option String) (t : ℕ) (a : LoanApplication),
        findApp db i = some a →
        ∃ r, (updateLenderResponse db i resp msg t).2 = some r ∧
          r.updatedAt = some t ∧ r.createdAt = a.createdAt) ∧
    (∀ (db : List LoanApplication) (i : ℕ) (acct : String) (t : ℕ)
        (a : LoanApplication), findApp db i = some a →
        ∃ r, (setAccountNumber db i acct t).2 = some r ∧
          r.updatedAt = some t ∧ r.createdAt = a.createdAt) ∧
    (∀ (db : List LoanApplication) (j : InsertLoanApplication) (n t : ℕ),
        (createLoanApplication db j n t).2.createdAt = t) ∧
    (∀ (db : List LoanApplication) (i : ℕ) (s : String)
        (a : LoanApplication), findApp db i = some a →
        ∃ r, (simpleUpdateLoanApplicationStatus db i s).2 = some r ∧
          r.updatedAt = a.updatedAt ∧ r.createdAt = a.createdAt) := by
  refine ⟨?_, ?_, ?_, ?_, ?_, ?_, ?_⟩
  · intro db i s t a h
    exact ⟨_, updateWhere_found _ (fun x => rfl) h, rfl, rfl⟩
  · intro db i step t a h
    exact ⟨_, updateWhere_found _ (applyAdvanceStep_id step t) h, rfl, rfl⟩
  · intro db i lid lname t a h
    exact ⟨_, updateWhere_found _ (fun x => rfl) h, rfl, rfl⟩
  · intro db i resp msg t a h
    exact ⟨_, updateWhere_found _ (fun x => rfl) h, rfl, rfl⟩
  · intro db i acct t a h
    exact ⟨_, updateWhere_found _ (fun x => rfl) h, rfl, rfl⟩
  · intro db j n t
    rfl
  · intro db i s a h
    exact ⟨_, updateWhere_found _ (fun x => rfl) h, rfl, rfl⟩

/-- C9 amended, witness: a rich status update on the sample record at
instant 10 bumps `updatedAt` to 10 and keeps `createdAt` = 3. -/
theorem mutations_bump_updatedAt_keep_createdAt_witness :
    (∃ r, (updateLoanApplicationStatus [sampleApp] 1 "approved" 10).2 =
        some r ∧ r.updatedAt = some 10 ∧ r.createdAt = sampleApp.createdAt) ∧
    (createLoanApplication [] goodInsert 1 7).2.createdAt = 7 :=
  ⟨mutations_bump_updatedAt_keep_createdAt.1 [sampleApp] 1 "approved" 10
      sampleApp rfl,
   mutations_bump_updatedAt_keep_createdAt.2.2.2.2.2.1 [] goodInsert 1 7⟩

/-! ## Claim C10 — falsy coercions at persistence time -/

/-- C10: `createLoanApplication` coerces JavaScript falsy optionals —
zero (or absent) monthlyExpenses is stored as null, empty-string
monthlyPayment/totalCost as "0", and an absent marketingAccepted as
false. -/
theorem createLoanApplication_falsy_coercions
    (db : List LoanApplication) (j : InsertLoanApplication) (n t : ℕ) :
    (j.monthlyExpenses = some 0 ∨ j.monthlyExpenses = none →
        (createLoanApplication db j n t).2.monthlyExpenses = none) ∧
    (j.monthlyPayment = "" →
        (createLoanApplication db j n t).2.monthlyPayment = "0") ∧
    (j.totalCost = "" →
        (createLoanApplication db j n t).2.totalCost = "0") ∧
    (j.marketingAccepted = none →
        (createLoanApplication db j n t).2.marketingAccepted = false) := by
  refine ⟨?_, ?_, ?_, ?_⟩
  · rintro (h | h) <;> simp [createLoanApplication, h]
  · intro h
    simp [createLoanApplication, h]
  · intro h
    simp [createLoanApplication, h]
  · intro h
    simp [createLoanApplication, h]

/-- C10 witness: the payload with zero expenses, empty figure strings
and no marketing consent is stored with null expenses, "0" figures and
marketingAccepted = false. -/
theorem createLoanApplication_falsy_coercions_witness :
    (createLoanApplication [] falsyInsert 1 0).2.monthlyExpenses = none ∧
    (createLoanApplication [] falsyInsert 1 0).2.monthlyPayment = "0" ∧
    (createLoanApplication [] falsyInsert 1 0).2.totalCost = "0" ∧
    (createLoanApplication [] falsyInsert 1 0).2.marketingAccepted = false := by
  have h := createLoanApplication_falsy_coercions [] falsyInsert 1 0
  exact ⟨h.1 (Or.inl rfl), h.2.1 rfl, h.2.2.1 rfl, h.2.2.2 rfl⟩

/-! ## Claim C1 — persisted figures are the client's, not a server
recomputation -/

/-- C1 counterexample: a schema-valid payload for amount 1500,
duration 6 carrying `monthlyPayment = "999.99"` is persisted verbatim,
although the server formula gives 253.66 for those loan terms — the
create route performs no recomputation and no tolerance check. -/
theorem createApplication_persists_client_figures :
    (createApplicationRoute [] mismatchedInsert 1 0).2 =
      RouteResult.ok (createLoanApplication [] mismatchedInsert 1 0).2 ∧
    (createLoanApplication [] mismatchedInsert 1 0).2.monthlyPayment =
      mismatchedInsert.monthlyPayment ∧
    mismatchedInsert.monthlyPayment = "999.99" ∧
    mismatchedInsert.amount = 1500 ∧
    mismatchedInsert.duration = 6 ∧
    round2 (rawMonthlyPayment 1500 6) = 12683 / 50 ∧
    (99999 : ℚ) / 100 ≠ 12683 / 50 := by
  refine ⟨?_, rfl, rfl, rfl, rfl, ?_, by norm_num⟩
  · unfold createApplicationRoute
    rw [if_pos (by decide)]
  · norm_num [round2, jsRound, rawMonthlyPayment, monthlyRate, annualRate]

/-- C1 amended: for every schema-valid payload the created record's
monthlyPayment and totalCost are exactly the client-supplied strings
(with an empty string coerced to "0"); the server performs no
recomputation from the Loan Calculator at creation time. -/
theorem createApplication_payment_fields (db : List LoanApplication)
    (j : InsertLoanApplication) (n t : ℕ) (h : validateInsert j = []) :
    ∃ app, createApplicationRoute db j n t =
        (db ++ [app], RouteResult.ok app) ∧
      app.monthlyPayment =
        (if j.monthlyPayment = "" then "0" else j.monthlyPayment) ∧
      app.totalCost = (if j.totalCost = "" then "0" else j.totalCost) := by
  refine ⟨(createLoanApplication db j n t).2, ?_, rfl, rfl⟩
  unfold createApplicationRoute
  rw [if_pos h]
  rfl

/-- C1 amended, witness at the valid sample payload. -/
theorem createApplication_payment_fields_witness :
    ∃ app, createApplicationRoute [] goodInsert 1 0 =
        ([] ++ [app], RouteResult.ok app) ∧
      app.monthlyPayment =
        (if goodInsert.monthlyPayment = "" then "0"
         else goodInsert.monthlyPayment) ∧
      app.totalCost =
        (if goodInsert.totalCost = "" then "0" else goodInsert.totalCost) :=
  createApplication_payment_fields [] goodInsert 1 0 (by decide)

end FinancialLending
